import Mathlib

/-!
Verification development for the SpeechWell dysarthria-analysis webhook
(`webhook_server.py` together with its test fixture `test_webhook.py`).

The speech-analysis core is shallowly embedded: Python text is `List Char`,
Python floats are modelled as exact rationals `ℚ`, Python `str.split()`,
`str.count`, `str.lower`, `str.strip`, `re.findall` are reimplemented with
matching semantics, and the per-segment / per-session scoring pipeline is
translated function by function.
-/

set_option maxRecDepth 8000

namespace SpeechWell

/-- Python text is modelled as a list of characters. -/
abbrev Text := List Char

/-- The characters Python `str.split()` / regex `\s` treat as whitespace
(space, tab, newline, vertical tab, form feed, carriage return). -/
def isPySpace (c : Char) : Bool :=
  c = ' ' || c = Char.ofNat 9 || c = Char.ofNat 10 || c = Char.ofNat 11 ||
  c = Char.ofNat 12 || c = Char.ofNat 13

/-- Helper for `tokens`: accumulates the current (reversed) token. -/
def tokensAux : Text → Text → List Text
  | [], cur => if cur = [] then [] else [cur.reverse]
  | c :: rest, cur =>
    if isPySpace c then
      if cur = [] then tokensAux rest [] else cur.reverse :: tokensAux rest []
    else tokensAux rest (c :: cur)

/-- Python `text.split()`: split on runs of whitespace, dropping empties. -/
def tokens (t : Text) : List Text := tokensAux t []

/-- Predicate `beginsWith pat t`: true when `pat` is an initial run of `t`. -/
def beginsWith : Text → Text → Bool
  | [], _ => true
  | _ :: _, [] => false
  | p :: ps, c :: cs => p = c && beginsWith ps cs

/-- Fuel-driven scanner for Python `str.count`: non-overlapping occurrences,
scanning left to right and skipping past each match.  The fuel is consumed
one unit per step and each step consumes at least one character, so fuel
equal to the text length is always sufficient. -/
def countOccAux (pat : Text) : Nat → Text → Nat
  | 0, _ => 0
  | _ + 1, [] => 0
  | fuel + 1, c :: cs =>
    if beginsWith pat (c :: cs) then
      1 + countOccAux pat fuel (List.drop (pat.length - 1) cs)
    else countOccAux pat fuel cs

/-- Python `text.count(pat)` for non-empty `pat`. -/
def countOcc (pat t : Text) : Nat := countOccAux pat t.length t

/-- ASCII lower-casing of one character (Python `str.lower` on ASCII input). -/
def lowerChar (c : Char) : Char :=
  if 65 ≤ c.toNat ∧ c.toNat ≤ 90 then Char.ofNat (c.toNat + 32) else c

/-- Python `text.lower()`. -/
def lowerT (t : Text) : Text := t.map lowerChar

/-- Python `text.strip()`: remove leading and trailing whitespace. -/
def stripT (t : Text) : Text :=
  ((t.dropWhile isPySpace).reverse.dropWhile isPySpace).reverse

/-- Python `text.split('.')` (keeps empty pieces). -/
def splitDotAux : Text → Text → List Text
  | [], cur => [cur.reverse]
  | c :: rest, cur =>
    if c = '.' then cur.reverse :: splitDotAux rest []
    else splitDotAux rest (c :: cur)

/-- Python `[s.strip() for s in text.split('.') if s.strip()]` — the sentence list
used by the pattern detector and the effectiveness scorer. -/
def sentencesOf (t : Text) : List Text :=
  ((splitDotAux t []).map stripT).filter (fun s => s ≠ [])

/-- Predicate `endsWith suf t`: true when `suf` is a final run of `t`
(Python `t.endswith(suf)`). -/
def endsWith (suf t : Text) : Bool := beginsWith suf.reverse t.reverse

/-- The literal `"..."`. -/
def dots3 : Text := "...".data

/-- The literal `".."`. -/
def dots2 : Text := "..".data

/-- The literal `","`. -/
def commaT : Text := ",".data

/-- The literal `" - "`. -/
def dashSp : Text := " - ".data

/-- The literal `" ... "`. -/
def spacedDots5 : Text := " ... ".data

/-- Fuel-driven scanner for the regexes `\.{2,}` and `  +` from
`count_pauses`: counts maximal runs of at least two copies of `ch`,
left to right, non-overlapping (`re.findall` semantics). -/
def countRunAux (ch : Char) : Nat → Text → Nat
  | 0, _ => 0
  | _ + 1, [] => 0
  | fuel + 1, a :: rest =>
    match rest with
    | [] => 0
    | b :: rest2 =>
      if a = ch ∧ b = ch then
        1 + countRunAux ch fuel (List.dropWhile (fun c => c = ch) rest2)
      else countRunAux ch fuel (b :: rest2)

/-- Match count of `re.findall` for a two-or-more run of `ch`. -/
def countRun (ch : Char) (t : Text) : Nat := countRunAux ch t.length t

/-- One attempted match of the regex `\s*\.\s*\.\s*\.` at the head of the
text; returns the remainder after the match.  The regex is deterministic
here because `\s` never matches `.`. -/
def matchSpacedDots (t : Text) : Option Text :=
  match t.dropWhile isPySpace with
  | '.' :: r1 =>
    match r1.dropWhile isPySpace with
    | '.' :: r2 =>
      match r2.dropWhile isPySpace with
      | '.' :: r3 => some r3
      | _ => none
    | _ => none
  | _ => none

/-- Fuel-driven scanner counting `re.findall(r"\s*\.\s*\.\s*\.", t)`. -/
def countSpacedDotsAux : Nat → Text → Nat
  | 0, _ => 0
  | _ + 1, [] => 0
  | fuel + 1, c :: cs =>
    match matchSpacedDots (c :: cs) with
    | some rest => 1 + countSpacedDotsAux fuel rest
    | none => countSpacedDotsAux fuel cs

/-- Match count of `re.findall` for the spaced-dots pattern. -/
def countSpacedDots (t : Text) : Nat := countSpacedDotsAux t.length t

/-- Source function `SpeechAnalyzer.count_pauses`: the four pause regex counts summed
(the patterns overlap and double-count the same punctuation run, exactly
as in the source). -/
def count_pauses (text : Text) : Nat :=
  countRun '.' text + countOcc [Char.ofNat 8230] text +
  countRun ' ' text + countSpacedDots text

/-- Rounding helper of `SpeechAnalyzer.calculate_speech_rate`: words per minute are rounded to
2 decimals; `0` when the duration is not positive. -/
def round2 (q : ℚ) : ℚ := (round (q * 100) : ℚ) / 100

/-- Source function `SpeechAnalyzer.calculate_speech_rate`. -/
def calculate_speech_rate (text : Text) (duration_seconds : ℚ) : ℚ :=
  if duration_seconds ≤ 0 then 0
  else round2 (((tokens text).length : ℚ) / duration_seconds * 60)

/-- Counts adjacent identical token pairs of length `> 2`, exactly as the
source loop `for i in range(len(words) - 1)` does. -/
def adjacentRepeats : List Text → Nat
  | [] => 0
  | [_] => 0
  | w :: w2 :: rest =>
    (if w = w2 ∧ 2 < w.length then 1 else 0) + adjacentRepeats (w2 :: rest)

/-- The same quantity phrased the way the specification does: the number
of adjacent pairs of tokens that are identical strings of length
greater than 2, read off the list of consecutive pairs. -/
def adjacent_identical_pairs (ws : List Text) : Nat :=
  (ws.zip ws.tail).countP (fun p => p.1 = p.2 ∧ 2 < p.1.length)

/-- The `correction_markers` list of `analyze_language_patterns`. -/
def correction_markers : List Text :=
  ["i mean".data, "no".data, "actually".data, "sorry".data,
   "let me".data, "or rather".data]

/-- The `fillers` list of `analyze_language_patterns`. -/
def filler_markers : List Text :=
  ["um".data, "uh".data, "er".data, "ah".data, "like".data,
   "you know".data, "well".data]

/-- Result record of `analyze_language_patterns`. -/
structure LanguagePatterns where
  word_repetitions : Nat
  self_corrections : Nat
  incomplete_thoughts : Nat
  filler_words : Nat
  complex_words_attempted : Nat
  sentence_fragments : Nat
deriving DecidableEq

/-- Source function `SpeechAnalyzer.analyze_language_patterns`.  Note the
tokens are taken from `text.lower().split()`, while the sentence list is
taken from the raw text. -/
def analyze_language_patterns (text : Text) : LanguagePatterns :=
  let words := tokens (lowerT text)
  let sentences := sentencesOf text
  { word_repetitions := adjacentRepeats words
    self_corrections :=
      (correction_markers.map (fun m => countOcc m (lowerT text))).sum
    incomplete_thoughts :=
      if endsWith dots3 text = true ∨ countOcc dots3 text > 0 then
        countOcc dots3 text
      else 0
    filler_words := (filler_markers.map (fun f => countOcc f (lowerT text))).sum
    complex_words_attempted := (words.filter (fun w => w.length > 6)).length
    sentence_fragments :=
      (sentences.filter (fun s => (tokens s).length < 3)).length }

/-- Result record of `analyze_communication_effectiveness`. -/
structure CommunicationEffectiveness where
  sentence_completion_rate : ℚ
  average_sentence_length : ℚ
  phrase_breaks : Nat
  message_clarity_score : ℚ
deriving DecidableEq

/-- Source function `SpeechAnalyzer.analyze_communication_effectiveness`.
The clarity score starts at 100 and the three penalty checks are applied
unconditionally (they are not guarded by `if sentences:`). -/
def analyze_communication_effectiveness (text : Text) :
    CommunicationEffectiveness :=
  let sentences := sentencesOf text
  let asl : ℚ :=
    if sentences ≠ [] then
      ((sentences.map (fun s => (tokens s).length)).sum : ℚ) /
        (sentences.length : ℚ)
    else 0
  let rate : ℚ :=
    if sentences ≠ [] then
      (((sentences.filter
          (fun s => (tokens s).length ≥ 3 ∧ ¬ endsWith dots3 s = true)).length
         : ℚ) / (sentences.length : ℚ)) * 100
    else 0
  let pb : Nat := countOcc commaT text + countOcc dots3 text + countOcc dots2 text
  let score1 : ℚ := 100
  let score2 := if rate < 70 then score1 - 20 else score1
  let score3 := if asl < 3 then score2 - 15 else score2
  let score4 :=
    if (pb : ℚ) > ((tokens text).length : ℚ) * (3 / 10) then score3 - 10
    else score3
  { sentence_completion_rate := rate
    average_sentence_length := asl
    phrase_breaks := pb
    message_clarity_score := max 0 score4 }

/-- The `hesitations` list of `analyze_verbal_fluency`. -/
def hesitation_markers : List Text :=
  ["um".data, "uh".data, "er".data, "ah".data, "hmm".data]

/-- The `revisions` list of `analyze_verbal_fluency`. -/
def revision_markers : List Text :=
  ["i mean".data, "no".data, "actually".data, "wait".data,
   "sorry".data, "let me try".data]

/-- Result record of `analyze_verbal_fluency`. -/
structure VerbalFluency where
  fluency_disruptions : Nat
  hesitation_frequency : Nat
  revision_attempts : Nat
  flow_interruptions : Nat
  overall_fluency_score : ℚ
deriving DecidableEq

/-- Source function `SpeechAnalyzer.analyze_verbal_fluency`. -/
def analyze_verbal_fluency (text : Text) : VerbalFluency :=
  let tl := lowerT text
  let wc := (tokens text).length
  let hes := (hesitation_markers.map (fun h => countOcc h tl)).sum
  let rev := (revision_markers.map (fun r => countOcc r tl)).sum
  let intr := countOcc dots3 text + countOcc dots2 text + countOcc dashSp text
  let total := hes + rev + intr
  { fluency_disruptions := total
    hesitation_frequency := hes
    revision_attempts := rev
    flow_interruptions := intr
    overall_fluency_score :=
      if wc > 0 then max 20 (100 - min 80 ((total : ℚ) / (wc : ℚ) * 200))
      else 100 }

/-- A turn of the ElevenLabs transcript: `role` and `message` strings plus
optional numeric `timestamp` and `duration` (absent keys are `none`). -/
structure TranscriptTurn where
  role : Text
  message : Text
  timestamp : Option ℚ
  duration : Option ℚ
deriving DecidableEq

/-- A user speech segment as built by the analyzer.  `estimated` is the
`'estimated'` key of the Python dict; segments built by
`extract_user_speech_segments` lack the key, i.e. `estimated = false`. -/
structure UserSegment where
  text : Text
  timestamp : ℚ
  duration : ℚ
  estimated : Bool
deriving DecidableEq

/-- Source function `SpeechAnalyzer.extract_user_speech_segments`: keep turns with
`role == 'user'` and a truthy (non-empty) `message`; absent `timestamp`
and `duration` default to `0`. -/
def extract_user_speech_segments : List TranscriptTurn → List UserSegment
  | [] => []
  | t :: rest =>
    if t.role = "user".data ∧ t.message ≠ [] then
      ⟨t.message, t.timestamp.getD 0, t.duration.getD 0, false⟩ ::
        extract_user_speech_segments rest
    else extract_user_speech_segments rest

/-- The `pause_indicators` count of `estimate_timing_from_conversation`:
`text.count('...') + text.count('..') + text.count(' ... ')`. -/
def pause_indicators (text : Text) : Nat :=
  countOcc dots3 text + countOcc dots2 text + countOcc spacedDots5 text

/-- The `hesitation_words` count of `estimate_timing_from_conversation`:
tokens of the lower-cased text that are in `['um','uh','er','ah']`. -/
def hesitation_words (text : Text) : Nat :=
  ((tokens (lowerT text)).filter
    (fun w => w ∈ ["um".data, "uh".data, "er".data, "ah".data])).length

/-- The `estimated_duration` computed per user turn by
`estimate_timing_from_conversation`: `word_count * 0.5 +
pause_indicators * 1.0 + hesitation_words * 0.5` (no rounding is applied
in the source). -/
def est_duration (text : Text) : ℚ :=
  ((tokens text).length : ℚ) * (1 / 2) + (pause_indicators text : ℚ) * 1 +
    (hesitation_words text : ℚ) * (1 / 2)

/-- The loop of `estimate_timing_from_conversation`, with the
`cumulative_time` accumulator made explicit. -/
def estimate_timing_aux : List TranscriptTurn → ℚ → List UserSegment
  | [], _ => []
  | t :: rest, clock =>
    if t.role = "user".data ∧ t.message ≠ [] then
      ⟨t.message, clock, est_duration t.message, true⟩ ::
        estimate_timing_aux rest (clock + est_duration t.message + 2)
    else estimate_timing_aux rest clock

/-- Source function `SpeechAnalyzer.estimate_timing_from_conversation`. -/
def estimate_timing_from_conversation (ts : List TranscriptTurn) :
    List UserSegment :=
  estimate_timing_aux ts 0

/-- The timing estimator exactly as the specification describes it: same
traversal, but with the per-turn duration rounded to 2 decimals
(`duration = base_duration + pause_time + hesitation_time, rounded to 2
decimals`).  Kept separate from the source translation so the two can be
compared. -/
def estimate_timing_spec : List TranscriptTurn → ℚ → List UserSegment
  | [], _ => []
  | t :: rest, clock =>
    if t.role = "user".data ∧ t.message ≠ [] then
      ⟨t.message, clock, round2 (est_duration t.message), true⟩ ::
        estimate_timing_spec rest (clock + round2 (est_duration t.message) + 2)
    else estimate_timing_spec rest clock

/-- A segment analysis record (`analyze_speech_segment`), with the
`communication_challenges` dict flattened into boolean fields. -/
structure SegmentAnalysis where
  text : Text
  duration_seconds : ℚ
  timing_estimated : Bool
  word_count : Nat
  character_count : Nat
  speech_rate_wpm : ℚ
  pause_count : Nat
  speech_density : ℚ
  avg_word_length : ℚ
  slow_speech_rate : Bool
  frequent_pauses : Bool
  short_responses : Bool
  word_finding_difficulty : Bool
  incomplete_thoughts_flag : Bool
  frequent_self_corrections : Bool
  communication_breakdown : Bool
  language_patterns : LanguagePatterns
  communication_effectiveness : CommunicationEffectiveness
  verbal_fluency : VerbalFluency
deriving DecidableEq

/-- Source function `SpeechAnalyzer.analyze_speech_segment`. -/
def analyze_speech_segment (seg : UserSegment) : SegmentAnalysis :=
  let text := seg.text
  let duration := seg.duration
  let wc := (tokens text).length
  let cc := (text.filter (fun c => c != ' ')).length
  let rate := calculate_speech_rate text duration
  let pc := count_pauses text
  let lp := analyze_language_patterns text
  let ce := analyze_communication_effectiveness text
  let vf := analyze_verbal_fluency text
  { text := text
    duration_seconds := duration
    timing_estimated := seg.estimated
    word_count := wc
    character_count := cc
    speech_rate_wpm := rate
    pause_count := pc
    speech_density := (wc : ℚ) / max duration 1
    avg_word_length := (cc : ℚ) / ((max wc 1 : Nat) : ℚ)
    slow_speech_rate := if 0 < rate then decide (rate < 100) else false
    frequent_pauses := decide ((pc : ℚ) > (wc : ℚ) * (15 / 100))
    short_responses := decide (wc < 5)
    word_finding_difficulty := decide (lp.filler_words > 2)
    incomplete_thoughts_flag := decide (lp.incomplete_thoughts > 0)
    frequent_self_corrections := decide (lp.self_corrections > 1)
    communication_breakdown := decide (ce.message_clarity_score < 60)
    language_patterns := lp
    communication_effectiveness := ce
    verbal_fluency := vf }

/-- The six averaged session scores of the session summary. -/
structure SessionScores where
  message_clarity : ℚ
  verbal_fluency : ℚ
  sentence_completion : ℚ
  repetition_control : ℚ
  correction_frequency : ℚ
  filler_control : ℚ
deriving DecidableEq

/-- The composite communication score computed in
`process_transcription_webhook` (weights 0.25/0.25/0.20/0.10/0.10/0.10). -/
def composite_score (s : SessionScores) : ℚ :=
  s.message_clarity * (25 / 100) + s.verbal_fluency * (25 / 100) +
    s.sentence_completion * (20 / 100) + s.repetition_control * (10 / 100) +
    s.correction_frequency * (10 / 100) + s.filler_control * (10 / 100)

/-- The four clinical-interpretation tiers of the session summary. -/
inductive Tier where
  | excellent
  | good
  | moderate
  | significant
deriving DecidableEq

/-- The interpretation ladder on the composite score. -/
def tier_of (c : ℚ) : Tier :=
  if 80 ≤ c then .excellent
  else if 60 ≤ c then .good
  else if 40 ≤ c then .moderate
  else .significant

/-- The session-score averaging loop of `process_transcription_webhook`
(each of the repetition / correction / filler sub-scores is floored at 0
per segment before averaging; the guard `segment_count > 0` is kept). -/
def session_scores_of (segs : List SegmentAnalysis) : SessionScores :=
  if segs.length > 0 then
    let n : ℚ := (segs.length : ℚ)
    { message_clarity :=
        (segs.map
          (fun a => a.communication_effectiveness.message_clarity_score)).sum / n
      verbal_fluency :=
        (segs.map (fun a => a.verbal_fluency.overall_fluency_score)).sum / n
      sentence_completion :=
        (segs.map
          (fun a => a.communication_effectiveness.sentence_completion_rate)).sum
          / n
      repetition_control :=
        (segs.map (fun a =>
          max 0 (100 - (a.language_patterns.word_repetitions : ℚ) * 20))).sum / n
      correction_frequency :=
        (segs.map (fun a =>
          max 0 (100 - (a.language_patterns.self_corrections : ℚ) * 15))).sum / n
      filler_control :=
        (segs.map (fun a =>
          max 0 (100 - (a.language_patterns.filler_words : ℚ) * 10))).sum / n }
  else ⟨0, 0, 0, 0, 0, 0⟩

/-- The segment-selection step of `process_transcription_webhook`: take
the extracted segments; when none of them carries a positive duration and
the list is non-empty, replace them all with the timing-estimated ones. -/
def select_user_segments (ts : List TranscriptTurn) : List UserSegment :=
  let us := extract_user_speech_segments ts
  if ¬ us.any (fun s => decide (0 < s.duration)) = true ∧ us ≠ [] then
    estimate_timing_from_conversation ts
  else us

/-- The session summary assembled by `process_transcription_webhook` when
the session is non-empty and has positive total duration. -/
structure SessionSummary where
  total_words : Nat
  total_duration : ℚ
  total_pauses : Nat
  overall_speech_rate : ℚ
  pause_rate : ℚ
  session_scores : SessionScores
  composite : ℚ
  interpretation : Tier
deriving DecidableEq

/-- The scoring core of `process_transcription_webhook`: extract (or
estimate) the user segments, return `none` when there are none
(`if not user_segments: return`), total the per-segment metrics, and
return `none` when the total duration is not positive
(`if total_analysis['total_duration'] > 0:` guards every session-level
score and the interpretation). -/
def process_transcription (ts : List TranscriptTurn) : Option SessionSummary :=
  let segs := select_user_segments ts
  if segs = [] then none
  else
    let analyses := segs.map analyze_speech_segment
    let tw := (analyses.map (fun a => a.word_count)).sum
    let td := (analyses.map (fun a => a.duration_seconds)).sum
    let tp := (analyses.map (fun a => a.pause_count)).sum
    if 0 < td then
      let ss := session_scores_of analyses
      some
        { total_words := tw
          total_duration := td
          total_pauses := tp
          overall_speech_rate := (tw : ℚ) / td * 60
          pause_rate := (tp : ℚ) / ((max tw 1 : Nat) : ℚ)
          session_scores := ss
          composite := composite_score ss
          interpretation := tier_of (composite_score ss) }
    else none

/-- Total duration of the selected user segments of a transcript. -/
def total_user_duration (ts : List TranscriptTurn) : ℚ :=
  ((select_user_segments ts).map (fun s => s.duration)).sum

/-- Total word count of the selected user segments of a transcript. -/
def total_user_words (ts : List TranscriptTurn) : Nat :=
  ((select_user_segments ts).map
    (fun s => (analyze_speech_segment s).word_count)).sum

/-- Capacity of `recent_results = deque(maxlen=10)`. -/
def recent_results_maxlen : Nat := 10

/-- Source function `store_analysis_result` appends one result to the bounded deque;
`deque(maxlen=10)` drops the oldest entries so that at most the last 10
appended entries remain. -/
def store_append {α : Type} (buf : List α) (x : α) : List α :=
  let b := buf ++ [x]
  b.drop (b.length - recent_results_maxlen)

/-- The six-turn sample transcript of `test_webhook.py`
(`sample_transcription_webhook["data"]["transcript"]`). -/
def fixture_transcript : List TranscriptTurn :=
  [⟨"agent".data,
    "Hello! I\x27m your speech therapy assistant. Let\x27s practice some speech exercises today. Can you tell me about your morning routine?".data,
    some 1000, some (7 / 2)⟩,
   ⟨"user".data,
    "Good... morning. I... I woke up at... seven thirty. Then I... had... breakfast with... my family.".data,
    some 4500, some (41 / 5)⟩,
   ⟨"agent".data,
    "That\x27s wonderful! I noticed you\x27re taking your time with your words, which is great for clarity. Can you tell me what you had for breakfast?".data,
    some 12700, some (41 / 10)⟩,
   ⟨"user".data,
    "I had... scrambled eggs... and... toast. With... orange juice.".data,
    some 16800, some (63 / 10)⟩,
   ⟨"agent".data,
    "Excellent! Now let\x27s try saying that same sentence a bit faster. Take a breath and tell me about your breakfast again.".data,
    some 23100, some (19 / 5)⟩,
   ⟨"user".data,
    "I had scrambled eggs and toast... with orange juice.".data,
    some 26900, some (9 / 2)⟩]

/-- The scenario segment of spec §8: text
`"I had... scrambled eggs... and... toast."` with duration 6.3 s
(the timestamp is irrelevant to the analysis). -/
def scenario_segment : UserSegment :=
  ⟨"I had... scrambled eggs... and... toast.".data, 0, 63 / 10, false⟩

end SpeechWell

namespace SpeechWell

attribute [local semireducible] Rat.mul Rat.add Rat.inv Rat.sub

-- Sanity examples for the text primitives (concrete evaluations).
example : tokens "I had... scrambled eggs... and... toast.".data =
    ["I".data, "had...".data, "scrambled".data, "eggs...".data,
     "and...".data, "toast.".data] := by decide

example : countOcc dots2 "...".data = 1 := by decide

example : countOcc dots3 "... ...".data = 2 := by decide

example : sentencesOf "...".data = [] := by decide

example : lowerT "Yes yes".data = "yes yes".data := by decide

example : endsWith dots3 "at...".data = true := by decide

example :
    count_pauses "I had... scrambled eggs... and... toast.".data = 6 := by
  decide

example :
    (analyze_language_patterns "Yes yes".data).word_repetitions = 1 := by
  decide

example :
    (analyze_communication_effectiveness ([] : Text)).message_clarity_score
      = 65 := by
  decide

-- "um" and the "er" inside "there" both count: 2 disruptions / 3 words,
-- penalty min 80 (2/3*200) = 80, score max 20 (100-80) = 20.
example :
    (analyze_verbal_fluency "um hello there".data).overall_fluency_score
      = 20 := by
  decide

example : total_user_words fixture_transcript = 34 := by decide

example : total_user_duration fixture_transcript = 19 := by decide

example :
    (select_user_segments fixture_transcript).map (fun s => s.estimated) =
      [false, false, false] := by
  decide

example :
    (process_transcription fixture_transcript).map
      (fun s => s.overall_speech_rate) = some (2040 / 19) := by
  decide

example : (analyze_speech_segment scenario_segment).word_count = 6 := by
  decide

example :
    (analyze_speech_segment scenario_segment).speech_rate_wpm = 2857 / 50 := by
  decide

example : (analyze_speech_segment scenario_segment).pause_count = 6 := by
  decide

example :
    (analyze_speech_segment scenario_segment).slow_speech_rate = true := by
  decide

-- "um... hello": 2 words, '...' counts once and '..' once (2 pause
-- indicators), and the token "um..." is not the hesitation word "um",
-- so the estimated duration is 2*0.5 + 2*1.0 = 3.0; the clock then
-- advances to 3.0 + 2.0 = 5.0 for the next user turn.
example :
    estimate_timing_from_conversation
      [⟨"user".data, "um... hello".data, none, none⟩,
       ⟨"agent".data, "hi".data, none, none⟩,
       ⟨"user".data, "good day".data, none, none⟩] =
    [⟨"um... hello".data, 0, 3, true⟩, ⟨"good day".data, 5, 1, true⟩] := by
  decide

/-! ### Helper lemmas -/

theorem round2_half_nat (k : ℕ) : round2 ((k : ℚ) / 2) = (k : ℚ) / 2 := by
  unfold round2
  have h : ((k : ℚ) / 2) * 100 = ((50 * k : ℕ) : ℚ) := by push_cast; ring
  rw [h, round_natCast]
  push_cast
  ring

theorem est_duration_half (text : Text) :
    est_duration text =
      (((tokens text).length + 2 * pause_indicators text +
        hesitation_words text : ℕ) : ℚ) / 2 := by
  unfold est_duration
  push_cast
  ring

/-- Every duration the timing estimator produces is a whole multiple of
half a second, so rounding it to 2 decimals leaves it unchanged. -/
theorem round2_est (text : Text) :
    round2 (est_duration text) = est_duration text := by
  rw [est_duration_half]
  exact round2_half_nat _

theorem est_duration_nonneg (text : Text) : 0 ≤ est_duration text := by
  rw [est_duration_half]
  positivity

theorem analyze_duration_seconds (s : UserSegment) :
    (analyze_speech_segment s).duration_seconds = s.duration := rfl

theorem adjacentRepeats_eq_pairs (ws : List Text) :
    adjacentRepeats ws = adjacent_identical_pairs ws := by
  induction ws with
  | nil => rfl
  | cons w rest ih =>
    cases rest with
    | nil => rfl
    | cons w2 rest2 =>
      simp only [adjacentRepeats, adjacent_identical_pairs, List.tail_cons,
        List.zip_cons_cons, List.countP_cons, decide_eq_true_eq, ih]
      exact Nat.add_comm _ _

theorem estimate_timing_aux_mem (ts : List TranscriptTurn) :
    ∀ (clock : ℚ) (s : UserSegment), s ∈ estimate_timing_aux ts clock →
      s.estimated = true ∧ 0 ≤ s.duration := by
  induction ts with
  | nil => intro clock s hs; simp [estimate_timing_aux] at hs
  | cons t rest ih =>
    intro clock s hs
    by_cases hc : t.role = "user".data ∧ t.message ≠ []
    · rw [estimate_timing_aux, if_pos hc] at hs
      rcases List.mem_cons.mp hs with h | h
      · subst h
        exact ⟨rfl, est_duration_nonneg _⟩
      · exact ih _ s h
    · rw [estimate_timing_aux, if_neg hc] at hs
      exact ih _ s hs

theorem estimate_timing_aux_nil (ts : List TranscriptTurn)
    (h : extract_user_speech_segments ts = []) :
    ∀ clock : ℚ, estimate_timing_aux ts clock = [] := by
  induction ts with
  | nil => intro clock; rfl
  | cons t rest ih =>
    intro clock
    by_cases hc : t.role = "user".data ∧ t.message ≠ []
    · rw [extract_user_speech_segments, if_pos hc] at h
      exact absurd h (List.cons_ne_nil _ _)
    · rw [extract_user_speech_segments, if_neg hc] at h
      rw [estimate_timing_aux, if_neg hc]
      exact ih h clock

theorem extract_duration_nonneg (ts : List TranscriptTurn)
    (h : ∀ t ∈ ts, 0 ≤ t.duration.getD 0) :
    ∀ s ∈ extract_user_speech_segments ts, 0 ≤ s.duration := by
  induction ts with
  | nil => intro s hs; simp [extract_user_speech_segments] at hs
  | cons t rest ih =>
    intro s hs
    have hrest : ∀ u ∈ rest, 0 ≤ u.duration.getD 0 :=
      fun u hu => h u (List.mem_cons_of_mem t hu)
    by_cases hc : t.role = "user".data ∧ t.message ≠ []
    · rw [extract_user_speech_segments, if_pos hc] at hs
      rcases List.mem_cons.mp hs with h1 | h1
      · subst h1
        exact h t (List.mem_cons_self t rest)
      · exact ih hrest s h1
    · rw [extract_user_speech_segments, if_neg hc] at hs
      exact ih hrest s hs

theorem store_append_def {α : Type} (buf : List α) (x : α) :
    store_append buf x = (buf ++ [x]).drop ((buf ++ [x]).length - 10) := rfl

/-- Taking the last ten of a list whose head part was already cut to its
last ten is the same as taking the last ten of the whole list. -/
theorem lastTen_lastTen {α : Type} (a b : List α) :
    (a.drop (a.length - 10) ++ b).drop
        ((a.drop (a.length - 10) ++ b).length - 10) =
      (a ++ b).drop ((a ++ b).length - 10) := by
  have hk : a.length - 10 ≤ a.length := Nat.sub_le _ _
  rw [← List.drop_append_of_le_length hk, List.drop_drop, List.length_drop,
    List.length_append]
  congr 1
  omega

theorem store_foldl {α : Type} (xs : List α) :
    ∀ buf : List α, buf.length ≤ 10 →
      xs.foldl store_append buf = (buf ++ xs).drop ((buf ++ xs).length - 10) := by
  induction xs with
  | nil =>
    intro buf h
    have h0 : buf.length - 10 = 0 := by omega
    simp [h0]
  | cons x xs ih =>
    intro buf h
    have hlen : (store_append buf x).length ≤ 10 := by
      rw [store_append_def]
      simp
      omega
    rw [List.foldl_cons, ih _ hlen, store_append_def, lastTen_lastTen]
    simp

/-! ### Claims -/

/-- C1: the session composite score is the weighted sum of the six
session scores with weights 0.25, 0.25, 0.20, 0.10, 0.10, 0.10; the
weights sum to exactly 1 (so the composite of six equal scores is that
score); and whenever all six scores lie in [0, 100] the composite lies
in [0, 100]. -/
theorem c1_composite (s : SessionScores)
    (h1 : 0 ≤ s.message_clarity) (h2 : s.message_clarity ≤ 100)
    (h3 : 0 ≤ s.verbal_fluency) (h4 : s.verbal_fluency ≤ 100)
    (h5 : 0 ≤ s.sentence_completion) (h6 : s.sentence_completion ≤ 100)
    (h7 : 0 ≤ s.repetition_control) (h8 : s.repetition_control ≤ 100)
    (h9 : 0 ≤ s.correction_frequency) (h10 : s.correction_frequency ≤ 100)
    (h11 : 0 ≤ s.filler_control) (h12 : s.filler_control ≤ 100) :
    composite_score s =
      s.message_clarity * (25 / 100) + s.verbal_fluency * (25 / 100) +
        s.sentence_completion * (20 / 100) +
        s.repetition_control * (10 / 100) +
        s.correction_frequency * (10 / 100) +
        s.filler_control * (10 / 100) ∧
    (25 / 100 + 25 / 100 + 20 / 100 + 10 / 100 + 10 / 100 + 10 / 100 : ℚ)
      = 1 ∧
    (∀ c : ℚ, composite_score ⟨c, c, c, c, c, c⟩ = c) ∧
    0 ≤ composite_score s ∧ composite_score s ≤ 100 := by
  refine ⟨rfl, by norm_num, fun c => by unfold composite_score; ring, ?_, ?_⟩ <;>
    · unfold composite_score
      linarith

/-- Witness for C1 at the six scores (100, 80, 60, 40, 20, 0). -/
theorem c1_witness :
    0 ≤ composite_score ⟨100, 80, 60, 40, 20, 0⟩ ∧
      composite_score ⟨100, 80, 60, 40, 20, 0⟩ ≤ 100 := by
  have h := c1_composite ⟨100, 80, 60, 40, 20, 0⟩ (by norm_num) (by norm_num)
    (by norm_num) (by norm_num) (by norm_num) (by norm_num) (by norm_num)
    (by norm_num) (by norm_num) (by norm_num) (by norm_num) (by norm_num)
  exact h.2.2.2

/-- C2: the overall fluency score is 100 for a text with no whitespace
tokens and `max 20 (100 - min 80 (disruptions/word_count*200))` for a
text with a positive token count, hence always within [20, 100]. -/
theorem c2_fluency_score (text : Text) :
    (analyze_verbal_fluency text).overall_fluency_score =
      (if (tokens text).length = 0 then 100
       else max 20 (100 - min 80
         (((analyze_verbal_fluency text).fluency_disruptions : ℚ) /
           ((tokens text).length : ℚ) * 200))) ∧
    20 ≤ (analyze_verbal_fluency text).overall_fluency_score ∧
    (analyze_verbal_fluency text).overall_fluency_score ≤ 100 := by
  have hshape : (analyze_verbal_fluency text).overall_fluency_score =
      if (tokens text).length > 0 then
        max 20 (100 - min 80
          (((analyze_verbal_fluency text).fluency_disruptions : ℚ) /
            ((tokens text).length : ℚ) * 200))
      else 100 := rfl
  have hd : (0 : ℚ) ≤
      ((analyze_verbal_fluency text).fluency_disruptions : ℚ) /
        ((tokens text).length : ℚ) * 200 := by positivity
  rcases Nat.eq_zero_or_pos (tokens text).length with h0 | h0
  · have hs : (analyze_verbal_fluency text).overall_fluency_score = 100 := by
      rw [hshape, if_neg (by omega)]
    refine ⟨?_, ?_, ?_⟩
    · rw [hs, if_pos h0]
    · rw [hs]
      norm_num
    · rw [hs]
  · have hne : ¬ (tokens text).length = 0 := by omega
    have hs : (analyze_verbal_fluency text).overall_fluency_score =
        max 20 (100 - min 80
          (((analyze_verbal_fluency text).fluency_disruptions : ℚ) /
            ((tokens text).length : ℚ) * 200)) := by
      rw [hshape, if_pos h0]
    have hmin : (0 : ℚ) ≤ min 80
        (((analyze_verbal_fluency text).fluency_disruptions : ℚ) /
          ((tokens text).length : ℚ) * 200) :=
      le_min (by norm_num) hd
    refine ⟨?_, ?_, ?_⟩
    · rw [hs, if_neg hne]
    · rw [hs]
      exact le_max_left _ _
    · rw [hs]
      exact max_le (by norm_num) (by linarith)

/-- C10: the recent-results store is a FIFO ring of capacity 10 —
appending preserves the bound, appending to a full buffer evicts the
oldest entry, and replaying any append sequence from empty leaves
exactly the most recent (at most) ten entries in insertion order. -/
theorem c10_recent_results :
    (∀ (α : Type) (buf : List α) (x : α), buf.length ≤ 10 →
      (store_append buf x).length ≤ 10) ∧
    (∀ (α : Type) (buf : List α) (x : α), buf.length = 10 →
      store_append buf x = buf.tail ++ [x]) ∧
    (∀ (α : Type) (xs : List α),
      xs.foldl store_append [] = xs.drop (xs.length - 10)) := by
  refine ⟨?_, ?_, ?_⟩
  · intro α buf x h
    rw [store_append_def]
    simp
    omega
  · intro α buf x h
    rw [store_append_def]
    have hlen : (buf ++ [x]).length - 10 = 1 := by
      simp [h]
    rw [hlen, List.drop_append_of_le_length (by omega), List.drop_one]
  · intro α xs
    have h := store_foldl xs ([] : List α) (by simp)
    simpa using h

/-- Witness for C10: appending 11 to a full buffer [1..10] evicts 1. -/
theorem c10_witness :
    (store_append ([0, 1] : List ℕ) 2).length ≤ 10 ∧
      store_append ([1, 2, 3, 4, 5, 6, 7, 8, 9, 10] : List ℕ) 11 =
        ([1, 2, 3, 4, 5, 6, 7, 8, 9, 10] : List ℕ).tail ++ [11] :=
  ⟨c10_recent_results.1 ℕ [0, 1] 2 (by decide),
   c10_recent_results.2.1 ℕ [1, 2, 3, 4, 5, 6, 7, 8, 9, 10] 11 (by decide)⟩

/-- C3, counterexample: the empty text has an empty sentence list, yet
its message clarity score is 65, not 100 — the completion-rate check
(0 < 70, −20) and the average-sentence-length check (0 < 3, −15) do fire
on an empty sentence list, contrary to the claim. -/
theorem c3_counterexample :
    sentencesOf ([] : Text) = [] ∧
    (analyze_communication_effectiveness ([] : Text)).message_clarity_score
      = 65 ∧
    (analyze_communication_effectiveness ([] : Text)).message_clarity_score
      ≠ 100 := by
  decide

/-- C3, amended: for a text whose sentence list is empty, the
effectiveness scorer returns average sentence length 0 and completion
rate 0, and its clarity score is 100 − 20 − 15 = 65 (both rate checks
fire, since 0 < 70 and 0 < 3), further reduced to 55 when the
phrase-break check also fires. -/
theorem c3_empty_sentences (text : Text) (h : sentencesOf text = []) :
    (analyze_communication_effectiveness text).average_sentence_length = 0 ∧
    (analyze_communication_effectiveness text).sentence_completion_rate = 0 ∧
    (analyze_communication_effectiveness text).message_clarity_score =
      (if ((countOcc commaT text + countOcc dots3 text +
            countOcc dots2 text : ℕ) : ℚ) >
          ((tokens text).length : ℚ) * (3 / 10) then 55 else 65) := by
  simp only [analyze_communication_effectiveness, h]
  norm_num
  split_ifs with hpb
  · norm_num
  · norm_num

/-- Witness for C3 at the text `"..."`, whose sentence list is empty and
whose phrase-break check fires (2 breaks > 0.3 × 1 word). -/
theorem c3_witness :
    (analyze_communication_effectiveness "...".data).average_sentence_length
      = 0 ∧
    (analyze_communication_effectiveness "...".data).sentence_completion_rate
      = 0 ∧
    (analyze_communication_effectiveness "...".data).message_clarity_score =
      (if ((countOcc commaT "...".data + countOcc dots3 "...".data +
            countOcc dots2 "...".data : ℕ) : ℚ) >
          ((tokens "...".data).length : ℚ) * (3 / 10) then 55 else 65) :=
  c3_empty_sentences "...".data (by decide)

/-- C5, counterexample: on `"Yes yes"` the detector reports one word
repetition, but the adjacent-pair count on the raw (case-preserving)
tokens is zero — the comparison is not case-sensitive. -/
theorem c5_counterexample :
    (analyze_language_patterns "Yes yes".data).word_repetitions ≠
      adjacent_identical_pairs (tokens "Yes yes".data) := by
  decide

/-- C5, amended: `word_repetitions` counts adjacent identical token
pairs of length > 2 over the tokens of the *lower-cased* text
(case-insensitively on the raw tokens), so `"Yes yes"` contributes one
repetition. -/
theorem c5_word_repetitions :
    (∀ text : Text, (analyze_language_patterns text).word_repetitions =
      adjacent_identical_pairs (tokens (lowerT text))) ∧
    (analyze_language_patterns "Yes yes".data).word_repetitions = 1 := by
  refine ⟨fun text => ?_, by decide⟩
  exact adjacentRepeats_eq_pairs (tokens (lowerT text))

/-- C8, counterexample: the scenario text
`"I had... scrambled eggs... and... toast."` splits into 6 whitespace
tokens, not 7 (the claimed word count and ≈67 WPM rate are wrong). -/
theorem c8_counterexample :
    (analyze_speech_segment scenario_segment).word_count ≠ 7 := by
  decide

/-- C8, amended: for the scenario segment (duration 6.3 s) the analyzer
yields word_count = 6, speech_rate_wpm = round(6/6.3×60, 2) = 57.14,
pause_count = 6 ≥ 3, and the slow-speech-rate challenge flag set. -/
theorem c8_scenario :
    (analyze_speech_segment scenario_segment).word_count = 6 ∧
    (analyze_speech_segment scenario_segment).speech_rate_wpm =
      round2 ((6 : ℚ) / (63 / 10) * 60) ∧
    (analyze_speech_segment scenario_segment).speech_rate_wpm = 2857 / 50 ∧
    3 ≤ (analyze_speech_segment scenario_segment).pause_count ∧
    (analyze_speech_segment scenario_segment).slow_speech_rate = true := by
  decide

/-- C9, counterexample: the three user turns of the sample fixture hold
16, 9 and 9 whitespace tokens, so the session total is 34 words, not
the claimed 25. -/
theorem c9_counterexample : total_user_words fixture_transcript ≠ 25 := by
  decide

/-- C9, amended: on the sample fixture the aggregation yields
total_words = 34, total_duration = 19.0, and an overall speech rate of
34/19×60 ≈ 107.4 WPM, which is *above* the 100 WPM threshold. -/
theorem c9_fixture_session :
    total_user_words fixture_transcript = 34 ∧
    total_user_duration fixture_transcript = 19 ∧
    (process_transcription fixture_transcript).map
      (fun s => s.overall_speech_rate) = some ((34 : ℚ) / 19 * 60) ∧
    ¬ ((34 : ℚ) / 19 * 60 < 100) := by
  decide

/-- C6: the timing estimator coincides with its specification — one
segment per user turn with non-empty message, duration
`word_count×0.5 + pause_indicators×1.0 + hesitation_words×0.5` rounded
to 2 decimals (the rounding is the identity here, every such duration
being a multiple of 0.5), timestamp equal to the cumulative clock,
`estimated = true`, the clock advancing by duration + 2.0 after each
user turn and untouched by non-user turns. -/
theorem c6_timing_estimator (ts : List TranscriptTurn) :
    estimate_timing_from_conversation ts = estimate_timing_spec ts 0 := by
  suffices h : ∀ clock : ℚ,
      estimate_timing_aux ts clock = estimate_timing_spec ts clock from h 0
  induction ts with
  | nil => intro clock; rfl
  | cons t rest ih =>
    intro clock
    by_cases hc : t.role = "user".data ∧ t.message ≠ []
    · rw [estimate_timing_aux, estimate_timing_spec, if_pos hc, if_pos hc,
        round2_est, ih]
    · rw [estimate_timing_aux, estimate_timing_spec, if_neg hc, if_neg hc, ih]

/-- The two-turn transcript with only non-negative upstream durations:
the first user turn carries a real positive duration, the second user
turn has no duration key.  Used to witness the amended C7. -/
def mixed_transcript : List TranscriptTurn :=
  [⟨"user".data, "hello there".data, none, some 5⟩,
   ⟨"user".data, "hi".data, none, none⟩]

/-- The three-turn transcript that defeats C7: the first user turn
carries a real positive duration (so the estimation fallback is never
taken), the second has no duration key, the third carries the
(well-typed but nonsensical) duration −1. -/
def mixed_neg_transcript : List TranscriptTurn :=
  [⟨"user".data, "hello there".data, none, some 5⟩,
   ⟨"user".data, "hi".data, none, none⟩,
   ⟨"user".data, "oh dear".data, none, some (-1)⟩]

/-- C7, counterexample: in a transcript where another user turn supplies
a positive duration, the turn with an absent duration yields a segment
with `estimated = false` and duration defaulted to 0 — the estimator is
never invoked for it — and a turn with a negative upstream duration
yields a segment with duration −1, so neither the `duration ≥ 0` clause
nor the estimated-flag clause of the claim survives. -/
theorem c7_counterexample :
    mixed_neg_transcript.map (fun t => t.duration) =
      [some 5, none, some (-1)] ∧
    (select_user_segments mixed_neg_transcript).map
      (fun s => (s.estimated, s.duration)) =
      [(false, 5), (false, 0), (false, -1)] ∧
    ¬ (∀ s ∈ select_user_segments mixed_neg_transcript, 0 ≤ s.duration) := by
  decide

/-- C7, amended: whenever every upstream duration is non-negative, every
produced segment has duration ≥ 0; and when *no* user turn supplies a
positive duration, the segments are exactly the TimingEstimator output
and all carry `estimated = true`.  (In mixed transcripts a user turn
with absent duration gets duration 0 and `estimated = false`.) -/
theorem c7_segment_invariant (ts : List TranscriptTurn)
    (h : ∀ t ∈ ts, 0 ≤ t.duration.getD 0) :
    (∀ s ∈ select_user_segments ts, 0 ≤ s.duration) ∧
    ((extract_user_speech_segments ts).any
        (fun s => decide (0 < s.duration)) = false →
      select_user_segments ts = estimate_timing_from_conversation ts ∧
      ∀ s ∈ select_user_segments ts, s.estimated = true) := by
  constructor
  · intro s hs
    simp only [select_user_segments] at hs
    split_ifs at hs with hc
    · exact (estimate_timing_aux_mem ts 0 s hs).2
    · exact extract_duration_nonneg ts h s hs
  · intro hany
    have hsel : select_user_segments ts =
        estimate_timing_from_conversation ts := by
      simp only [select_user_segments]
      by_cases he : extract_user_speech_segments ts = []
      · rw [if_neg (by simp [he]), he]
        exact (estimate_timing_aux_nil ts he 0).symm
      · rw [if_pos ⟨by simp [hany], he⟩]
    refine ⟨hsel, ?_⟩
    rw [hsel]
    intro s hs
    exact (estimate_timing_aux_mem ts 0 s hs).1

/-- Witness for C7 at `mixed_transcript` (all supplied durations are
non-negative there). -/
theorem c7_witness :
    (∀ s ∈ select_user_segments mixed_transcript, 0 ≤ s.duration) ∧
    ((extract_user_speech_segments mixed_transcript).any
        (fun s => decide (0 < s.duration)) = false →
      select_user_segments mixed_transcript =
        estimate_timing_from_conversation mixed_transcript ∧
      ∀ s ∈ select_user_segments mixed_transcript, s.estimated = true) :=
  c7_segment_invariant mixed_transcript (by decide)

/-- C4: when the total duration of the selected user segments is 0 the
scoring core returns `none` — no session scores, no composite, no
interpretation — and in general it returns a session summary exactly
when there is at least one user segment and the total duration is
positive (the embedding is a total function, so it never raises). -/
theorem c4_empty_session (ts : List TranscriptTurn) :
    (total_user_duration ts = 0 → process_transcription ts = none) ∧
    ((process_transcription ts).isSome ↔
      select_user_segments ts ≠ [] ∧ 0 < total_user_duration ts) := by
  have hdur : ((select_user_segments ts).map analyze_speech_segment).map
      (fun a => a.duration_seconds) =
      (select_user_segments ts).map (fun s => s.duration) := by
    rw [List.map_map]
    rfl
  by_cases hseg : select_user_segments ts = []
  · constructor
    · intro _
      simp [process_transcription, hseg]
    · simp [process_transcription, hseg]
  · by_cases hpos : 0 < total_user_duration ts
    · constructor
      · intro h0
        rw [h0] at hpos
        exact absurd hpos (lt_irrefl 0)
      · have hpos' : 0 <
            ((select_user_segments ts).map (fun s => s.duration)).sum := hpos
        have : (process_transcription ts).isSome = true := by
          simp only [process_transcription, if_neg hseg, hdur]
          rw [if_pos hpos']
          rfl
        simp [this, hseg, hpos]
    · have hpos' : ¬ 0 <
          ((select_user_segments ts).map (fun s => s.duration)).sum := hpos
      have hnone : process_transcription ts = none := by
        simp only [process_transcription, if_neg hseg, hdur]
        rw [if_neg hpos']
      constructor
      · intro _
        exact hnone
      · simp [hnone, hpos]

/-- Witness for C4 at the empty transcript (total duration 0). -/
theorem c4_witness : process_transcription [] = none :=
  (c4_empty_session []).1 (by decide)

end SpeechWell
